import Mathlib

/-!
# Session Timekeeper model (ludo-spets)

A shallow embedding of the session-timekeeper logic of the ludo-spets
arcade kiosk:

* the countdown goroutine of `ludo.RunGame` (src/ludo/ludo.go), modelled
  as a step function over an explicit phase machine whose inputs are the
  select-outcomes the goroutine observes (ticks, channel receives, wait
  expirations, cancellation) and whose outputs are channel sends and
  Overlay State writes;
* the geometry-consuming part of `Server.HandleTimeout`
  (src/webui/server.go), modelled as a reader over the list of integers
  that arrive, where all four reads race one single-shot 100 ms timeout:
  at most one absent value can be replaced by its default, and a later
  absent value blocks the handler forever;
* the `quit` case of `Client.handleMessage` (src/webui/websocket.go).
-/

namespace LudoSpets

/-- Window geometry, the result of `vid.Window.GetPos` / `GetSize`. -/
structure Geometry where
  x : Int
  y : Int
  width : Int
  height : Int
deriving DecidableEq, Repr

/-- Messages the Timekeeper sends on the duration/control channel
(`timerChan`), tagged by the send site in `ludo.RunGame`. -/
inductive Msg where
  /-- the `-999` "game loaded" sentinel (ludo.go line 222). -/
  | loaded
  /-- the `-2` prepare-timeout sentinel (ludo.go line 261). -/
  | prepareTimeout
  /-- the `-1` timeout sentinel (ludo.go line 282). -/
  | timeoutSig
  /-- one of the four raw geometry integers (ludo.go lines 285-288). -/
  | geom (v : Int)
deriving DecidableEq, Repr

/-- The integer each message stands for on the shared `chan int`. -/
def Msg.toWire : Msg → Int
  | .loaded => -999
  | .prepareTimeout => -2
  | .timeoutSig => -1
  | .geom v => v

/-- Observable effects of one step of the timer goroutine: a channel send
or a write to the shared Overlay State (`globalTimerOverlay`). -/
inductive Out where
  | send (m : Msg)
  | overlayWrite (remaining : Int)
deriving DecidableEq, Repr

/-- Control position of the timer goroutine: the outer `select` loop,
the nested wait for `resumeChan`, the nested wait for the new duration,
or returned. -/
inductive Phase where
  | running
  | awaitResume
  | awaitDuration
  | exited
deriving DecidableEq, Repr

/-- The timer goroutine's local state: `remaining`, `prepareTimeoutSent`,
`gamePaused` (ludo.go lines 230-234), plus `state.MenuActive` (the engine
pause flag) and the control position. -/
structure TimerState where
  remaining : Int
  prepareTimeoutSent : Bool
  gamePaused : Bool
  menuActive : Bool
  phase : Phase
deriving DecidableEq, Repr

/-- Select-outcomes the timer goroutine can observe.  `tick` carries the
environment it reads at that moment: whether GLFW is still initialized
and the window geometry (`none` when `vid`/`vid.Window` is nil, in which
case the zero-initialized locals are sent). -/
inductive Event where
  | tick (glfwOk : Bool) (g : Option Geometry)
  | recvDuration (d : Int)
  | recvResume (confirmed : Bool) (glfwOk : Bool)
  | resumeTimeout
  | durationTimeout
  | done
  | gameExited
deriving DecidableEq, Repr

/-- `var xpos, ypos, width, height int` stay zero when the window is
unavailable (ludo.go lines 273-277). -/
def geomOrZero : Option Geometry → Geometry
  | some g => g
  | none => ⟨0, 0, 0, 0⟩

/-- One iteration of the timer goroutine's control flow
(ludo.go lines 236-359).  In phase `running` the outer `select` races
`doneChan`, `gameExitedChan`, `ticker.C` and `timerChan`; an expiring
tick sends the timeout block and moves to the nested wait on
`resumeChan` (racing a 30 s timeout and `doneChan`); after a resume the
goroutine waits on `timerChan` racing a 5 s timeout. -/
def step : TimerState → Event → TimerState × List Out
  | ⟨rem, pts, gp, ma, Phase.exited⟩, _ =>
    (⟨rem, pts, gp, ma, Phase.exited⟩, [])
  | ⟨rem, pts, gp, ma, Phase.running⟩, e =>
    match e with
    | Event.done => (⟨rem, pts, gp, ma, Phase.exited⟩, [])
    | Event.gameExited => (⟨rem, pts, gp, ma, Phase.exited⟩, [])
    | Event.tick glfwOk g =>
      if gp then (⟨rem, pts, gp, ma, Phase.running⟩, [])
      else
        let r := rem - 1
        let fired := decide (r = 10) && !pts
        let sent := pts || fired
        let outs := Out.overlayWrite r ::
          (if fired then [Out.send Msg.prepareTimeout] else [])
        if r ≤ 0 then
          if glfwOk then
            let q := geomOrZero g
            (⟨r, sent, true, true, Phase.awaitResume⟩,
              outs ++ [Out.send Msg.timeoutSig, Out.send (Msg.geom q.x),
                Out.send (Msg.geom q.y), Out.send (Msg.geom q.width),
                Out.send (Msg.geom q.height)])
          else
            (⟨r, sent, gp, ma, Phase.exited⟩, outs)
        else
          (⟨r, sent, gp, ma, Phase.running⟩, outs)
    | Event.recvDuration d =>
      if 0 < d then
        (⟨rem + d, pts, gp, ma, Phase.running⟩, [Out.overlayWrite (rem + d)])
      else (⟨rem, pts, gp, ma, Phase.running⟩, [])
    | _ => (⟨rem, pts, gp, ma, Phase.running⟩, [])
  | ⟨rem, pts, gp, ma, Phase.awaitResume⟩, e =>
    match e with
    | Event.recvResume _ glfwOk =>
      if glfwOk then (⟨rem, pts, gp, ma, Phase.awaitDuration⟩, [])
      else (⟨rem, pts, gp, ma, Phase.exited⟩, [])
    | Event.resumeTimeout => (⟨rem, pts, gp, ma, Phase.exited⟩, [])
    | Event.done => (⟨rem, pts, gp, ma, Phase.exited⟩, [])
    | _ => (⟨rem, pts, gp, ma, Phase.awaitResume⟩, [])
  | ⟨_, _, _, _, Phase.awaitDuration⟩, Event.recvDuration d =>
    (⟨d, false, false, false, Phase.running⟩, [Out.overlayWrite d])
  | ⟨_, pts, _, ma, Phase.awaitDuration⟩, Event.durationTimeout =>
    (⟨60, pts, false, ma, Phase.running⟩, [])
  | ⟨rem, pts, gp, ma, Phase.awaitDuration⟩, _ =>
    (⟨rem, pts, gp, ma, Phase.awaitDuration⟩, [])

/-- Run the timer goroutine over a sequence of observed events,
collecting all outputs in order. -/
def run (s : TimerState) : List Event → TimerState × List Out
  | [] => (s, [])
  | e :: es =>
    let p := step s e
    let q := run p.1 es
    (q.1, p.2 ++ q.2)

/-- The goroutine's local state at its start (ludo.go lines 230-234). -/
def initState (durationSeconds : Int) : TimerState :=
  { remaining := durationSeconds
    prepareTimeoutSent := false
    gamePaused := false
    menuActive := false
    phase := Phase.running }

/-- The full output trace of `RunGame` for one session: the initial
Overlay State write (ludo.go lines 206-209), the `-999` loaded signal
(line 222), then whatever the timer goroutine does. -/
def runGameTrace (durationSeconds : Int) (events : List Event) : List Out :=
  Out.overlayWrite durationSeconds :: Out.send Msg.loaded ::
    (run (initState durationSeconds) events).2

/-- Just the channel sends of an output trace. -/
def sentMsgs : List Out → List Msg
  | [] => []
  | Out.send m :: rest => m :: sentMsgs rest
  | Out.overlayWrite _ :: rest => sentMsgs rest

/-- One read of `Server.HandleTimeout`: the next arrived value if there
is one.  `timeout := time.After(100 * time.Millisecond)` is created once
(server.go line 315) and delivers a single value, so a read that finds
no arrived value substitutes its default only while that one-shot
timeout is still pending — and consumes it; once it is spent, a read
with no arriving value blocks forever (`none`). -/
def readOrTimeout (dflt : Int) (timeoutPending : Bool) :
    List Int → Option (Int × List Int × Bool)
  | v :: rest => some (v, rest, timeoutPending)
  | [] => if timeoutPending then some (dflt, [], false) else none

/-- The geometry-consuming part of `Server.HandleTimeout`
(src/webui/server.go lines 310-359): four sequential reads from
`timerChan` with defaults 0, 0, 800, 600, all four selects racing the
same single-shot 100 ms timeout channel; `none` when a read can never
complete. -/
def handleTimeoutGeom (avail : List Int) : Option Geometry := do
  let (x, a1, t1) ← readOrTimeout 0 true avail
  let (y, a2, t2) ← readOrTimeout 0 t1 a1
  let (w, a3, t3) ← readOrTimeout 800 t2 a2
  let (h, _, _) ← readOrTimeout 600 t3 a3
  pure ⟨x, y, w, h⟩

/-- Checks that every timeout sentinel in a message list is immediately
followed by exactly four geometry integers, and that geometry integers
occur nowhere else. -/
def timeoutBlocksOK : List Msg → Bool
  | [] => true
  | Msg.timeoutSig :: Msg.geom _ :: Msg.geom _ :: Msg.geom _ ::
      Msg.geom _ :: rest => timeoutBlocksOK rest
  | Msg.timeoutSig :: _ => false
  | Msg.geom _ :: _ => false
  | _ :: rest => timeoutBlocksOK rest

/-- The geometry payload integers of a message list, in order. -/
def geomPayload : List Msg → List Int
  | [] => []
  | Msg.geom v :: rest => v :: geomPayload rest
  | _ :: rest => geomPayload rest

/-! ## Front-end (web) state machine -/

/-- `ServerState` from src/webui/server.go. -/
inductive ServerState where
  | stateSelectGame
  | stateTimeSelect
  | statePayment
  | stateExtendTime
  | stateExtendPayment
  | stateGameLoading
  | stateGameActive
deriving DecidableEq, Repr

/-- A signal the web client handler can send toward the Timekeeper:
a value on `resumeChan` or a value on `timerChan`. -/
inductive UiSignal where
  | resumeSig (confirmed : Bool)
  | durationSig (seconds : Int)
deriving DecidableEq, Repr

/-- The `quit` case of `Client.handleMessage`
(src/webui/websocket.go lines 246-253): in `StateExtendTime` it sets the
state to `StateSelectGame`; it sends nothing on either channel. -/
def handleQuit (st : ServerState) : ServerState × List UiSignal :=
  if st = ServerState.stateExtendTime then (ServerState.stateSelectGame, [])
  else (st, [])

/-! ## Concrete states and runs used by witnesses and counterexamples -/

/-- A mid-session state of the countdown goroutine. -/
def sampleRunning : TimerState :=
  { remaining := 20
    prepareTimeoutSent := false
    gamePaused := false
    menuActive := false
    phase := Phase.running }

/-- The state right after a timeout block was sent. -/
def sampleAwaitResume : TimerState :=
  { remaining := 0
    prepareTimeoutSent := true
    gamePaused := true
    menuActive := true
    phase := Phase.awaitResume }

/-- The state right after the resume confirmation was consumed. -/
def sampleAwaitDuration : TimerState :=
  { remaining := 0
    prepareTimeoutSent := true
    gamePaused := true
    menuActive := true
    phase := Phase.awaitDuration }

/-- A tick with GLFW alive and a queryable window. -/
def tickOk : Event := Event.tick true (some ⟨1, 2, 3, 4⟩)

/-- A session of 12 seconds that times out, gets a confirmed extension
whose duration value never arrives (5 s fallback to 60), then counts the
fallback leg down to 10. -/
def c2Events : List Event :=
  List.replicate 12 tickOk ++
    (Event.recvResume true true :: Event.durationTimeout ::
      List.replicate 50 tickOk)

/-- A 1-second session expiring on a tick where the geometry query
fails (`vid.Window` unavailable). -/
def c8Events : List Event := [Event.tick true none]

/-- A running state about to expire on its next tick. -/
def sampleExpiring : TimerState :=
  { remaining := 1
    prepareTimeoutSent := false
    gamePaused := false
    menuActive := false
    phase := Phase.running }

/-! ## Helper lemmas -/

/-- `sentMsgs` distributes over append. -/
lemma sentMsgs_append (a b : List Out) :
    sentMsgs (a ++ b) = sentMsgs a ++ sentMsgs b := by
  induction a with
  | nil => rfl
  | cons x xs ih => cases x <;> simp [sentMsgs, ih]

/-- Any message other than a timeout sentinel or a geometry integer is
transparent to the block check. -/
lemma timeoutBlocksOK_loaded (l : List Msg) :
    timeoutBlocksOK (Msg.loaded :: l) = timeoutBlocksOK l := rfl

/-- The prepare-timeout sentinel is transparent to the block check. -/
lemma timeoutBlocksOK_prepare (l : List Msg) :
    timeoutBlocksOK (Msg.prepareTimeout :: l) = timeoutBlocksOK l := rfl

/-- A complete timeout block reduces the block check to its tail. -/
lemma timeoutBlocksOK_block (a b c d : Int) (l : List Msg) :
    timeoutBlocksOK (Msg.timeoutSig :: Msg.geom a :: Msg.geom b ::
      Msg.geom c :: Msg.geom d :: l) = timeoutBlocksOK l := rfl

/-- Every single step of the timer goroutine emits messages that form
complete timeout blocks: nothing, a prepare-timeout alone, or a timeout
sentinel directly followed by the four geometry integers. -/
lemma timeoutBlocksOK_step (s : TimerState) (e : Event) (rest : List Msg) :
    timeoutBlocksOK (sentMsgs (step s e).2 ++ rest) = timeoutBlocksOK rest := by
  obtain ⟨rem, pts, gp, ma, ph⟩ := s
  cases ph <;> cases e <;>
    simp only [step] <;>
    (try split_ifs) <;>
    simp [sentMsgs, sentMsgs_append, timeoutBlocksOK]

/-- Over any event sequence, the timer goroutine's sends satisfy the
block discipline. -/
lemma timeoutBlocksOK_run (s : TimerState) (es : List Event) :
    timeoutBlocksOK (sentMsgs (run s es).2) = true := by
  induction es generalizing s with
  | nil => rfl
  | cons e es ih =>
    simp only [run, sentMsgs_append]
    rw [timeoutBlocksOK_step]
    exact ih _

/-- The timer goroutine itself never sends the loaded sentinel. -/
lemma loaded_not_in_step (s : TimerState) (e : Event) :
    Msg.loaded ∉ sentMsgs (step s e).2 := by
  obtain ⟨rem, pts, gp, ma, ph⟩ := s
  cases ph <;> cases e <;>
    simp only [step] <;>
    (try split_ifs) <;>
    simp [sentMsgs, sentMsgs_append]

/-- No run of the timer goroutine sends the loaded sentinel. -/
lemma loaded_not_in_run (s : TimerState) (es : List Event) :
    Msg.loaded ∉ sentMsgs (run s es).2 := by
  induction es generalizing s with
  | nil => simp [run, sentMsgs]
  | cons e es ih =>
    simp only [run, sentMsgs_append, List.mem_append]
    push_neg
    exact ⟨loaded_not_in_step _ _, ih _⟩

/-- Once the goroutine has returned, a step does nothing. -/
lemma step_exited (s : TimerState) (e : Event) (h : s.phase = Phase.exited) :
    step s e = (s, []) := by
  obtain ⟨rem, pts, gp, ma, ph⟩ := s
  cases ph <;> simp_all [step]

/-- Once the goroutine has returned, any further events produce no
state change and no outputs — in particular no Overlay State writes. -/
lemma run_exited (s : TimerState) (es : List Event) (h : s.phase = Phase.exited) :
    run s es = (s, []) := by
  induction es with
  | nil => rfl
  | cons e es ih =>
    simp only [run, step_exited s e h]
    simp [ih]

/-! ## Claims -/

/-- C1: whenever the Timekeeper expires a session leg, the timeout
sentinel it sends on the duration/control channel is immediately
followed by exactly four geometry integers (x, y, width, height), with
no other message of its own interleaved; and the receiving
`HandleTimeout` consumes exactly those four values in order. -/
theorem C1_timeout_block_protocol (d : Int) (es : List Event) :
    timeoutBlocksOK (sentMsgs (runGameTrace d es)) = true ∧
    ∀ x y w h : Int, handleTimeoutGeom [x, y, w, h] = some ⟨x, y, w, h⟩ := by
  constructor
  · show timeoutBlocksOK
      (Msg.loaded :: sentMsgs (run (initState d) es).2) = true
    rw [timeoutBlocksOK_loaded]
    exact timeoutBlocksOK_run _ _
  · intro x y w h
    rfl

/-- C3: if no extension confirmation arrives within the 30-second wait,
the Timekeeper exits, emits nothing at that step, and performs no
further Overlay State writes (or any other output) afterwards. -/
theorem C3_resume_wait_abandons (s : TimerState) (es : List Event)
    (h : s.phase = Phase.awaitResume) :
    (step s Event.resumeTimeout).1.phase = Phase.exited ∧
    (step s Event.resumeTimeout).2 = [] ∧
    run (step s Event.resumeTimeout).1 es = ((step s Event.resumeTimeout).1, []) := by
  obtain ⟨rem, pts, gp, ma, ph⟩ := s
  simp only [TimerState.phase] at h
  subst h
  exact ⟨rfl, rfl, run_exited _ es rfl⟩

/-- C3 witness: concrete instance of the 30-second abandonment. -/
theorem C3_witness :
    sampleAwaitResume.phase = Phase.awaitResume ∧
    ((step sampleAwaitResume Event.resumeTimeout).1.phase = Phase.exited ∧
      (step sampleAwaitResume Event.resumeTimeout).2 = [] ∧
      run (step sampleAwaitResume Event.resumeTimeout).1 [tickOk, tickOk]
        = ((step sampleAwaitResume Event.resumeTimeout).1, [])) :=
  ⟨rfl, C3_resume_wait_abandons sampleAwaitResume [tickOk, tickOk] rfl⟩

/-- C4: after a timeout, a confirmation on the resume channel followed
by a duration value `d` makes `remaining` exactly `d`, clears the
countdown pause flag and the engine menu flag, and returns the
Timekeeper to its running phase. -/
theorem C4_confirmed_extension_resumes (s : TimerState) (d : Int)
    (h : s.phase = Phase.awaitResume) :
    (step (step s (Event.recvResume true true)).1 (Event.recvDuration d)).1.remaining = d ∧
    (step (step s (Event.recvResume true true)).1 (Event.recvDuration d)).1.gamePaused = false ∧
    (step (step s (Event.recvResume true true)).1 (Event.recvDuration d)).1.menuActive = false ∧
    (step (step s (Event.recvResume true true)).1 (Event.recvDuration d)).1.phase = Phase.running := by
  obtain ⟨rem, pts, gp, ma, ph⟩ := s
  simp only [TimerState.phase] at h
  subst h
  exact ⟨rfl, rfl, rfl, rfl⟩

/-- C4 witness: a confirmed extension of 45 seconds resumes with
`remaining = 45`. -/
theorem C4_witness :
    sampleAwaitResume.phase = Phase.awaitResume ∧
    ((step (step sampleAwaitResume (Event.recvResume true true)).1
        (Event.recvDuration 45)).1.remaining = 45 ∧
      (step (step sampleAwaitResume (Event.recvResume true true)).1
        (Event.recvDuration 45)).1.gamePaused = false ∧
      (step (step sampleAwaitResume (Event.recvResume true true)).1
        (Event.recvDuration 45)).1.menuActive = false ∧
      (step (step sampleAwaitResume (Event.recvResume true true)).1
        (Event.recvDuration 45)).1.phase = Phase.running) :=
  ⟨rfl, C4_confirmed_extension_resumes sampleAwaitResume 45 rfl⟩

/-- C5: a positive duration received on the channel while the
Timekeeper is running is added to `remaining`, never substituted for
it, and the Overlay State is updated with the accumulated value. -/
theorem C5_addtime_accumulates (s : TimerState) (d : Int)
    (hph : s.phase = Phase.running) (hd : 0 < d) :
    (step s (Event.recvDuration d)).1.remaining = s.remaining + d ∧
    (step s (Event.recvDuration d)).2 = [Out.overlayWrite (s.remaining + d)] := by
  obtain ⟨rem, pts, gp, ma, ph⟩ := s
  simp only [TimerState.phase] at hph
  subst hph
  simp [step, hd]

/-- C5 witness: adding 7 seconds to a session with 20 left yields 27. -/
theorem C5_witness :
    sampleRunning.phase = Phase.running ∧ (0 : Int) < 7 ∧
    ((step sampleRunning (Event.recvDuration 7)).1.remaining
        = sampleRunning.remaining + 7 ∧
      (step sampleRunning (Event.recvDuration 7)).2
        = [Out.overlayWrite (sampleRunning.remaining + 7)]) :=
  ⟨rfl, by decide, C5_addtime_accumulates sampleRunning 7 rfl (by decide)⟩

/-- C6: if the new duration does not arrive within the 5-second wait
after a confirmation, `remaining` defaults to 60, the countdown pause
flag clears, the Timekeeper returns to running, and the next tick
counts down to 59 rather than stalling. -/
theorem C6_duration_wait_defaults_to_60 (s : TimerState)
    (h : s.phase = Phase.awaitDuration) :
    (step s Event.durationTimeout).1.remaining = 60 ∧
    (step s Event.durationTimeout).1.gamePaused = false ∧
    (step s Event.durationTimeout).1.phase = Phase.running ∧
    (step (step s Event.durationTimeout).1 (Event.tick true none)).1.remaining = 59 := by
  obtain ⟨rem, pts, gp, ma, ph⟩ := s
  simp only [TimerState.phase] at h
  subst h
  refine ⟨rfl, rfl, rfl, ?_⟩
  simp [step, geomOrZero]

/-- C6 witness: the default applied to a concrete post-confirmation
state. -/
theorem C6_witness :
    sampleAwaitDuration.phase = Phase.awaitDuration ∧
    ((step sampleAwaitDuration Event.durationTimeout).1.remaining = 60 ∧
      (step sampleAwaitDuration Event.durationTimeout).1.gamePaused = false ∧
      (step sampleAwaitDuration Event.durationTimeout).1.phase = Phase.running ∧
      (step (step sampleAwaitDuration Event.durationTimeout).1
        (Event.tick true none)).1.remaining = 59) :=
  ⟨rfl, C6_duration_wait_defaults_to_60 sampleAwaitDuration rfl⟩

/-- C7: for every positive allotted duration, the loaded sentinel is
the very first message of the session's send trace — before any
tick-driven prepare-timeout or timeout — and it is never sent again. -/
theorem C7_session_loaded_once_first (d : Int) (es : List Event)
    (_hd : 0 < d) :
    (sentMsgs (runGameTrace d es)).head? = some Msg.loaded ∧
    Msg.loaded ∉ (sentMsgs (runGameTrace d es)).tail := by
  constructor
  · rfl
  · show Msg.loaded ∉ (Msg.loaded :: sentMsgs (run (initState d) es).2).tail
    simp only [List.tail_cons]
    exact loaded_not_in_run _ _

/-- C7 witness: a 3-second session that ticks once. -/
theorem C7_witness :
    (0 : Int) < 3 ∧
    ((sentMsgs (runGameTrace 3 [tickOk])).head? = some Msg.loaded ∧
      Msg.loaded ∉ (sentMsgs (runGameTrace 3 [tickOk])).tail) :=
  ⟨by decide, C7_session_loaded_once_first 3 [tickOk] (by decide)⟩

/-- C10: while running, a non-positive value received on the duration
channel — the wire encodings of the loaded, prepare-timeout and timeout
sentinels are all non-positive — changes nothing: the state (including
`remaining`) is untouched and no Overlay State write occurs. -/
theorem C10_nonpositive_duration_ignored (s : TimerState) (d : Int)
    (hph : s.phase = Phase.running) (hd : d ≤ 0) :
    step s (Event.recvDuration d) = (s, []) ∧
    Msg.toWire Msg.loaded ≤ 0 ∧
    Msg.toWire Msg.prepareTimeout ≤ 0 ∧
    Msg.toWire Msg.timeoutSig ≤ 0 := by
  refine ⟨?_, by decide, by decide, by decide⟩
  obtain ⟨rem, pts, gp, ma, ph⟩ := s
  simp only [TimerState.phase] at hph
  subst hph
  have hnd : ¬ (0 < d) := by omega
  simp [step, hnd]

/-- C10 witness: the loaded sentinel's wire value `-999` arriving while
running is ignored. -/
theorem C10_witness :
    sampleRunning.phase = Phase.running ∧ (-999 : Int) ≤ 0 ∧
    (step sampleRunning (Event.recvDuration (-999)) = (sampleRunning, []) ∧
      Msg.toWire Msg.loaded ≤ 0 ∧
      Msg.toWire Msg.prepareTimeout ≤ 0 ∧
      Msg.toWire Msg.timeoutSig ≤ 0) :=
  ⟨rfl, by decide, C10_nonpositive_duration_ignored sampleRunning (-999) rfl (by decide)⟩

/-- C2 counterexample: a 12-second session expires (one timeout,
one prepare-timeout), the extension is confirmed but its duration value
never arrives, so the 5-second fallback starts a 60-second leg; that leg
counts down to exactly 10 while running, yet no second prepare-timeout
is ever emitted — the whole trace carries one, not two. -/
theorem C2_counterexample :
    (sentMsgs (runGameTrace 12 c2Events)).count Msg.prepareTimeout = 1 ∧
    (sentMsgs (runGameTrace 12 c2Events)).count Msg.timeoutSig = 1 ∧
    (run (initState 12) c2Events).1.phase = Phase.running ∧
    (run (initState 12) c2Events).1.remaining = 10 ∧
    ¬ (sentMsgs (runGameTrace 12 c2Events)).count Msg.prepareTimeout = 2 := by
  decide

/-- C2 amended: the prepare-timeout fires exactly when an unpaused
running tick takes `remaining` from 11 to 10 with the sent flag clear;
the flag is cleared again only when an extension's duration value
actually arrives, while the 5-second default-60 fallback leaves it set,
so a fallback leg counts down through 10 without a second
prepare-timeout. -/
theorem C2_amended_prepare_fires_iff (s : TimerState) (glfwOk : Bool)
    (g : Option Geometry) (d : Int) :
    (Msg.prepareTimeout ∈ sentMsgs (step s (Event.tick glfwOk g)).2 ↔
      s.phase = Phase.running ∧ s.gamePaused = false ∧
        s.remaining = 11 ∧ s.prepareTimeoutSent = false) ∧
    (step { s with phase := Phase.awaitDuration }
      (Event.recvDuration d)).1.prepareTimeoutSent = false ∧
    (step { s with phase := Phase.awaitDuration }
      Event.durationTimeout).1.prepareTimeoutSent = s.prepareTimeoutSent := by
  obtain ⟨rem, pts, gp, ma, ph⟩ := s
  refine ⟨?_, rfl, rfl⟩
  cases ph <;> cases gp <;> cases pts <;>
    simp only [step, TimerState.phase, TimerState.gamePaused,
      TimerState.remaining, TimerState.prepareTimeoutSent] <;>
    (try split_ifs) <;>
    simp_all [sentMsgs, sentMsgs_append] <;>
    omega

/-- C8 counterexample: when the geometry query fails at expiry, the
timeout fires once but the four integers actually sent — and read
successfully by `HandleTimeout`, whose defaults only ever substitute
for a value that does not arrive — are `(0, 0, 0, 0)`, not the claimed
`(0, 0, 800, 600)`. -/
theorem C8_counterexample :
    (sentMsgs (runGameTrace 1 c8Events)).count Msg.timeoutSig = 1 ∧
    geomPayload (sentMsgs (runGameTrace 1 c8Events)) = [0, 0, 0, 0] ∧
    handleTimeoutGeom (geomPayload (sentMsgs (runGameTrace 1 c8Events)))
      = some ⟨0, 0, 0, 0⟩ ∧
    (⟨0, 0, 0, 0⟩ : Geometry) ≠ ⟨0, 0, 800, 600⟩ := by
  decide

/-- C8 amended: a failed geometry query at expiry is non-fatal — the
timeout sentinel still fires exactly once, immediately followed by the
zero-initialized geometry `(0, 0, 0, 0)`, which is what the front-end
receives. -/
theorem C8_amended_failed_query_sends_zeros (s : TimerState)
    (hph : s.phase = Phase.running) (hgp : s.gamePaused = false)
    (hr : s.remaining ≤ 1) :
    sentMsgs (step s (Event.tick true none)).2 =
      [Msg.timeoutSig, Msg.geom 0, Msg.geom 0, Msg.geom 0, Msg.geom 0] ∧
    handleTimeoutGeom [0, 0, 0, 0] = some ⟨0, 0, 0, 0⟩ := by
  obtain ⟨rem, pts, gp, ma, ph⟩ := s
  simp only [TimerState.phase, TimerState.gamePaused,
    TimerState.remaining] at hph hgp hr
  subst hph
  subst hgp
  refine ⟨?_, rfl⟩
  have h10 : ¬ (rem - 1 = 10) := by omega
  have h0 : rem - 1 ≤ 0 := by omega
  simp [step, sentMsgs, h10, h0, geomOrZero]

/-- C8 witness: the amended behavior at the concrete expiring state. -/
theorem C8_witness :
    sampleExpiring.phase = Phase.running ∧
    sampleExpiring.gamePaused = false ∧
    sampleExpiring.remaining ≤ 1 ∧
    (sentMsgs (step sampleExpiring (Event.tick true none)).2 =
        [Msg.timeoutSig, Msg.geom 0, Msg.geom 0, Msg.geom 0, Msg.geom 0] ∧
      handleTimeoutGeom [0, 0, 0, 0] = some ⟨0, 0, 0, 0⟩) :=
  ⟨rfl, rfl, by decide,
    C8_amended_failed_query_sends_zeros sampleExpiring rfl rfl (by decide)⟩

/-- C9 counterexample: the quit intent in `StateExtendTime` transitions
the web state machine to `StateSelectGame` but sends no message of any
kind toward the Timekeeper — no stop signal exists on either channel. -/
theorem C9_counterexample :
    handleQuit ServerState.stateExtendTime
      = (ServerState.stateSelectGame, []) ∧
    ∀ sig : UiSignal, sig ∉ (handleQuit ServerState.stateExtendTime).2 := by
  refine ⟨rfl, ?_⟩
  intro sig
  simp [handleQuit]

/-- C9 amended: quit in `StateExtendTime` only transitions the state
machine back to `StateSelectGame`; nothing is sent to the Timekeeper,
which instead terminates on its own when its 30-second resume wait
expires. -/
theorem C9_amended_quit_transitions_only (s : TimerState)
    (h : s.phase = Phase.awaitResume) :
    (handleQuit ServerState.stateExtendTime).1 = ServerState.stateSelectGame ∧
    (handleQuit ServerState.stateExtendTime).2 = [] ∧
    (step s Event.resumeTimeout).1.phase = Phase.exited := by
  obtain ⟨rem, pts, gp, ma, ph⟩ := s
  simp only [TimerState.phase] at h
  subst h
  exact ⟨rfl, rfl, rfl⟩

/-- C9 witness: the amended behavior at the concrete post-timeout
state. -/
theorem C9_witness :
    sampleAwaitResume.phase = Phase.awaitResume ∧
    ((handleQuit ServerState.stateExtendTime).1
        = ServerState.stateSelectGame ∧
      (handleQuit ServerState.stateExtendTime).2 = [] ∧
      (step sampleAwaitResume Event.resumeTimeout).1.phase = Phase.exited) :=
  ⟨rfl, C9_amended_quit_transitions_only sampleAwaitResume rfl⟩

end LudoSpets
